import Mathlib

/-!
Shallow embedding of `src/landing/src/python/server.py` (CortexOS landing server).

The Python string operations the server uses (`str.split`, `str.strip`,
`str.startswith`, `str.endswith`, slicing) are modelled by structurally
recursive functions over `List Char`, so that every definition evaluates
inside the kernel.  Filesystem state and the wall clock are passed
explicitly: a `FileSystem` value records what `refresh` would observe on
disk, and `now` is the ISO-8601 string `datetime.now(timezone.utc).isoformat()`
would return.  A Python exception escaping a function is modelled by
`Except`, whose `error` payload is the object state at the raise point.
-/

namespace Landing

/-- ASCII whitespace, the characters relevant to `str.strip()` on the
documents this server reads. -/
def isSpaceChar (c : Char) : Bool :=
  c == ' ' || c == '\t' || c == '\n' || c == '\r'

/-- Remove the characters satisfying `p` from both ends of a list. -/
def stripBoth (p : Char → Bool) (s : List Char) : List Char :=
  ((s.dropWhile p).reverse.dropWhile p).reverse

/-- Python `s.strip()`. -/
def pyStrip (s : String) : String :=
  String.mk (stripBoth isSpaceChar s.data)

/-- Python `s.strip("- ")`: remove every leading and trailing character that
is a hyphen or a space. -/
def pyStripDashSpace (s : String) : String :=
  String.mk (stripBoth (fun c => c == '-' || c == ' ') s.data)

/-- Python `s.startswith(pre)`. -/
def pyStartsWith (s pre : String) : Bool :=
  pre.data.isPrefixOf s.data

/-- Python `s.endswith(suf)`. -/
def pyEndsWith (s suf : String) : Bool :=
  suf.data.isSuffixOf s.data

/-- Python `s[n:]` (drop the first `n` characters). -/
def pyDrop (s : String) (n : Nat) : String :=
  String.mk (s.data.drop n)

/-- Worker for `pySplit`: split on the (non-empty) separator `sep`,
leftmost-first and non-overlapping, exactly like Python `str.split(sep)`.
`fuel` is an upper bound on the length of the remaining input; every step
consumes at least one character and one unit of fuel. -/
def splitGo (sep : List Char) : Nat → List Char → List (List Char)
  | _, [] => [[]]
  | 0, s => [s]
  | fuel + 1, c :: cs =>
    if sep.isPrefixOf (c :: cs) then
      [] :: splitGo sep fuel (cs.drop (sep.length - 1))
    else
      match splitGo sep fuel cs with
      | [] => [[c]]
      | r :: rs => (c :: r) :: rs

/-- Python `s.split(sep)` for a non-empty separator (Python raises on an
empty separator; the server only splits on `"\n## "` and `"\n"`). -/
def pySplit (s sep : String) : List String :=
  if sep.data.isEmpty then [s]
  else (splitGo sep.data s.data.length s.data).map String.mk

/-- A parsed JSON value, as `json.loads` would produce it. -/
inductive JsonValue where
  | null
  | bool (b : Bool)
  | num (n : Int)
  | str (s : String)
  | arr (elems : List JsonValue)
  | obj (fields : List (String × JsonValue))

/-- Python `d.get(key, default)` on the association list of a parsed JSON
object (`json.loads` yields unique keys, so first-match lookup agrees with
`dict` lookup). -/
def lookupField : List (String × JsonValue) → String → Option JsonValue
  | [], _ => none
  | (k, v) :: rest, key => if k = key then some v else lookupField rest key

/-- What reading `<root>/package.json` can observe:
`unreadable` models `read_text` raising `OSError`,
`malformed` models `json.loads` raising `JSONDecodeError`,
`parsed v` models a successful parse to the JSON value `v`. -/
inductive PkgFile where
  | unreadable
  | malformed
  | parsed (v : JsonValue)

/-- The parts of the filesystem `ProjectStats.refresh` reads under a project
root.  `pkg = none` means `<root>/package.json` does not exist.
`testDir = some names` means `<root>/test` exists and `names` are the names
of all entries found recursively under it (`rglob`); `none` means the
directory is absent.  `builtinDir` likewise for the entries directly under
`<root>/src/plugins/builtin` (`glob`). -/
structure FileSystem where
  pkg : Option PkgFile := none
  testDir : Option (List String) := none
  builtinDir : Option (List String) := none

/-- The `ProjectStats` dataclass with its field defaults.  `version` holds a
`JsonValue` because Python assigns `pkg.get("version", self.version)`
whatever value the manifest carries; the default is the string
`"1.0.0-beta.1"`. -/
structure ProjectStats where
  tests_passing : Nat := 1240
  test_files : Nat := 93
  providers : Nat := 10
  pipeline_stages : Nat := 8
  quality_gates : Nat := 6
  builtin_plugins : Nat := 5
  reasoning_strategies : Nat := 6
  agent_roles : Nat := 9
  competitive_benchmarks : Nat := 36
  benchmarks_ahead : Nat := 24
  benchmarks_competitive : Nat := 8
  benchmarks_ready : Nat := 3
  package_size_kb : Nat := 682
  build_time_ms : Nat := 109
  version : JsonValue := .str "1.0.0-beta.1"
  last_commit : String := ""
  last_updated : String := ""

/-- `len(list(dir.rglob(pat)))` / `len([f for f in dir.glob(pat)])`:
the number of entries whose name matches the suffix pattern. -/
def countMatching (files : List String) (suffix : String) : Nat :=
  (files.filter fun f => pyEndsWith f suffix).length

/-- The two counting blocks of `refresh` (lines 80-90 of `server.py`):
overwrite `test_files` and `builtin_plugins` from the directories that
exist, leaving each untouched when its directory is absent. -/
def applyCounts (s : ProjectStats) (fs : FileSystem) : ProjectStats :=
  let s1 := match fs.testDir with
    | none => s
    | some files => { s with test_files := countMatching files ".test.ts" }
  match fs.builtinDir with
  | none => s1
  | some files => { s1 with builtin_plugins := countMatching files "-plugin.ts" }

/-- `ProjectStats.refresh(project_root)`.  Sets `last_updated`; without a
root it returns at once.  With a root it runs the manifest step: a missing,
unreadable or JSON-malformed manifest is swallowed (`except (JSONDecodeError,
OSError): pass`); a manifest parsing to a JSON object updates `version` via
`pkg.get("version", self.version)`; a manifest parsing to any other JSON
value makes `pkg.get` raise `AttributeError`, which no except clause
catches — modelled as `.error` carrying the state at the raise point.  When
the manifest step does not raise, the two counting blocks run. -/
def ProjectStats.refresh (s : ProjectStats) (root : Option FileSystem) (now : String) :
    Except ProjectStats ProjectStats :=
  let s0 := { s with last_updated := now }
  match root with
  | none => .ok s0
  | some fs =>
    match fs.pkg with
    | some (.parsed (.obj flds)) =>
      .ok (applyCounts { s0 with version := (lookupField flds "version").getD s0.version } fs)
    | some (.parsed _) => .error s0
    | _ => .ok (applyCounts s0 fs)

/-- The object state after a call, whether or not it raised (a raise leaves
the fields assigned so far in place). -/
def afterState : Except ProjectStats ProjectStats → ProjectStats
  | .ok s => s
  | .error s => s

/-- Does the manifest step of `refresh` raise?  True exactly when the
manifest parses to a JSON value that is not an object. -/
def pkgStepRaises : Option PkgFile → Bool
  | some (.parsed (.obj _)) => false
  | some (.parsed _) => true
  | _ => false

/-- The `BenchmarkResult` dataclass. -/
structure BenchmarkResult where
  name : String
  category : String
  status : String
  before : String
  after : String
  deriving DecidableEq

/-- `BENCHMARK_CATEGORIES` (lines 126-143 of `server.py`), as an ordered
association list mirroring the insertion-ordered Python dict. -/
def BENCHMARK_CATEGORIES : List (String × List BenchmarkResult) :=
  [("AI Agent Frameworks",
    [⟨"Multi-Agent Orchestration", "AI Agent Frameworks", "ahead", "9 roles", "9 roles + pool + handoff + IPC"⟩,
     ⟨"Memory System", "AI Agent Frameworks", "competitive", "SQLite + TF-IDF", "SQLite + TF-IDF + neural + eviction"⟩,
     ⟨"Provider Support", "AI Agent Frameworks", "competitive", "2 providers", "10 providers + failover + circuit breaker"⟩,
     ⟨"Reasoning Strategies", "AI Agent Frameworks", "ahead", "6 strategies", "6 research-backed + orchestrator"⟩]),
   ("Quality Assurance",
    [⟨"6-Gate Pipeline", "Quality Assurance", "ahead", "6 gates", "6 gates + auto-fixer"⟩,
     ⟨"Type Checking", "Quality Assurance", "ahead", "Basic", "Production implementation"⟩,
     ⟨"Security Scanning", "Quality Assurance", "ahead", "Basic", "Production implementation"⟩]),
   ("Observability",
    [⟨"Distributed Tracing", "Observability", "competitive", "Tracer", "Nested spans + export"⟩,
     ⟨"Metrics Dashboard", "Observability", "competitive", "Collector only", "Dashboard + WebSocket + REST"⟩,
     ⟨"Cost Tracking", "Observability", "competitive", "Per-model", "Per-model + budgets + router"⟩])]

/-- The `/api/benchmarks` handler body: serializes `BENCHMARK_CATEGORIES`
category by category, preserving order. -/
def get_benchmarks : List (String × List BenchmarkResult) :=
  BENCHMARK_CATEGORIES

/-- The `PipelineStage` dataclass. -/
structure PipelineStage where
  id : Nat
  name : String
  icon : String
  description : String
  color : String
  deriving DecidableEq

/-- `PIPELINE_STAGES` (lines 145-154 of `server.py`). -/
def PIPELINE_STAGES : List PipelineStage :=
  [⟨1, "RECALL", "🔍", "Retrieve relevant memories & context", "#e94560"⟩,
   ⟨2, "ANALYZE", "🧬", "Parse intent, complexity, entities", "#7b2ff7"⟩,
   ⟨3, "ENHANCE", "✨", "Augment with memory & repo context", "#00d2ff"⟩,
   ⟨4, "DECOMPOSE", "🔀", "Break into parallelizable subtasks", "#00f5a0"⟩,
   ⟨5, "PLAN", "📋", "Assign agents, tools, strategies", "#ffd700"⟩,
   ⟨6, "EXECUTE", "⚡", "Multi-agent swarm execution", "#ff6b35"⟩,
   ⟨7, "VERIFY", "✅", "6-gate quality verification", "#00f5a0"⟩,
   ⟨8, "MEMORIZE", "💾", "Persist learnings with decay", "#f72585"⟩]

/-- The `/api/pipeline` handler body: serializes `PIPELINE_STAGES`. -/
def get_pipeline : List PipelineStage :=
  PIPELINE_STAGES

/-- `asdict` on a `PipelineStage`, in dataclass field order. -/
def pipelineJson (st : PipelineStage) : JsonValue :=
  .obj [("id", .num (Int.ofNat st.id)), ("name", .str st.name), ("icon", .str st.icon),
        ("description", .str st.description), ("color", .str st.color)]

/-- `asdict` on a `ProjectStats`, in dataclass field order. -/
def asdictStats (s : ProjectStats) : JsonValue :=
  .obj [("tests_passing", .num (Int.ofNat s.tests_passing)),
        ("test_files", .num (Int.ofNat s.test_files)),
        ("providers", .num (Int.ofNat s.providers)),
        ("pipeline_stages", .num (Int.ofNat s.pipeline_stages)),
        ("quality_gates", .num (Int.ofNat s.quality_gates)),
        ("builtin_plugins", .num (Int.ofNat s.builtin_plugins)),
        ("reasoning_strategies", .num (Int.ofNat s.reasoning_strategies)),
        ("agent_roles", .num (Int.ofNat s.agent_roles)),
        ("competitive_benchmarks", .num (Int.ofNat s.competitive_benchmarks)),
        ("benchmarks_ahead", .num (Int.ofNat s.benchmarks_ahead)),
        ("benchmarks_competitive", .num (Int.ofNat s.benchmarks_competitive)),
        ("benchmarks_ready", .num (Int.ofNat s.benchmarks_ready)),
        ("package_size_kb", .num (Int.ofNat s.package_size_kb)),
        ("build_time_ms", .num (Int.ofNat s.build_time_ms)),
        ("version", s.version),
        ("last_commit", .str s.last_commit),
        ("last_updated", .str s.last_updated)]

/-- The FastAPI `health_check` handler body (lines 211-218): the JSON object
`{status, version, timestamp}`, with `version` taken from the stats
snapshot and `timestamp` from the clock. -/
def health_check (s : ProjectStats) (now : String) : List (String × JsonValue) :=
  [("status", .str "healthy"), ("version", s.version), ("timestamp", .str now)]

/-- The stdlib fallback `/api/health` response body (lines 268-273): the
JSON object `{status, server, timestamp}` — no `version` key. -/
def fallback_health (now : String) : List (String × JsonValue) :=
  [("status", .str "healthy"), ("server", .str "stdlib"), ("timestamp", .str now)]

/-- `LandingHTTPHandler._handle_api` (lines 257-277): route on the exact
path.  `/api/stats` builds a fresh default `ProjectStats` and refreshes it
against the project root (a raise in `refresh` propagates); `/api/health`
and `/api/pipeline` serve their fixed bodies; every other path gets
`{"error": "not found"}`. -/
def handle_api (path : String) (root : Option FileSystem) (now : String) :
    Except ProjectStats JsonValue :=
  if path = "/api/stats" then
    match ProjectStats.refresh {} root now with
    | .ok s => .ok (asdictStats s)
    | .error s => .error s
  else if path = "/api/health" then .ok (.obj (fallback_health now))
  else if path = "/api/pipeline" then .ok (.arr (PIPELINE_STAGES.map pipelineJson))
  else .ok (.obj [("error", .str "not found")])

/-- A parsed changelog entry. -/
structure ChangelogEntry where
  version : String
  changes : List String
  deriving DecidableEq

/-- The `get_changelog` handler body (lines 220-235), as a function of the
changelog file's content (`none` when `CHANGELOG.md` is absent).  Mirrors
the Python line by line: `content.split("\n## ")[1:4]`; per section
`section.strip().split("\n")`, `lines[0].strip()` as the version, and
`[l.strip("- ").strip() for l in lines[1:] if l.strip().startswith("-")][:5]`
as the changes. -/
def get_changelog (content : Option String) : List ChangelogEntry :=
  match content with
  | none => []
  | some text =>
    (((pySplit text "\n## ").drop 1).take 3).map fun sec =>
      let lines := pySplit (pyStrip sec) "\n"
      { version := pyStrip (lines.headD "")
        changes := (((lines.drop 1).filter fun l => pyStartsWith (pyStrip l) "-").map
          fun l => pyStrip (pyStripDashSpace l)).take 5 }

/-- The changelog algorithm as the claim states it: sections are split on
`"\n## "`, the preamble discarded, at most 3 kept; per section the version
is the first line trimmed, and the changes are the subsequent lines whose
trimmed text starts with `"- "`, each with the leading `"- "` stripped and
the remainder trimmed, at most 5 kept. -/
def changelogClaim (content : Option String) : List ChangelogEntry :=
  match content with
  | none => []
  | some text =>
    (((pySplit text "\n## ").drop 1).take 3).map fun sec =>
      let lines := pySplit sec "\n"
      { version := pyStrip (lines.headD "")
        changes := (((lines.drop 1).filter fun l => pyStartsWith (pyStrip l) "- ").map
          fun l => pyStrip (pyDrop (pyStrip l) 2)).take 5 }

/-- The changelog algorithm as the code actually behaves: the section text
is stripped of surrounding whitespace before being split into lines; a
subsequent line qualifies when its trimmed text starts with `"-"` (a space
after the hyphen is not required); and a qualifying line is transformed by
removing every leading and trailing hyphen or space character and trimming
the remainder. -/
def changelogAmended (content : Option String) : List ChangelogEntry :=
  match content with
  | none => []
  | some text =>
    (((pySplit text "\n## ").drop 1).take 3).map fun sec =>
      let lines := pySplit (pyStrip sec) "\n"
      { version := pyStrip (lines.headD "")
        changes := ((lines.drop 1).filterMap fun l =>
          if pyStartsWith (pyStrip l) "-" then some (pyStrip (pyStripDashSpace l))
          else none).take 5 }

/-- The thirteen fields neither counting block touches. -/
theorem applyCounts_frame (s : ProjectStats) (fs : FileSystem) :
    (applyCounts s fs).tests_passing = s.tests_passing ∧
    (applyCounts s fs).providers = s.providers ∧
    (applyCounts s fs).pipeline_stages = s.pipeline_stages ∧
    (applyCounts s fs).quality_gates = s.quality_gates ∧
    (applyCounts s fs).reasoning_strategies = s.reasoning_strategies ∧
    (applyCounts s fs).agent_roles = s.agent_roles ∧
    (applyCounts s fs).competitive_benchmarks = s.competitive_benchmarks ∧
    (applyCounts s fs).benchmarks_ahead = s.benchmarks_ahead ∧
    (applyCounts s fs).benchmarks_competitive = s.benchmarks_competitive ∧
    (applyCounts s fs).benchmarks_ready = s.benchmarks_ready ∧
    (applyCounts s fs).package_size_kb = s.package_size_kb ∧
    (applyCounts s fs).build_time_ms = s.build_time_ms ∧
    (applyCounts s fs).last_commit = s.last_commit := by
  obtain ⟨p, td, bd⟩ := fs
  cases td <;> cases bd <;>
    exact ⟨rfl, rfl, rfl, rfl, rfl, rfl, rfl, rfl, rfl, rfl, rfl, rfl, rfl⟩

/-- The counting blocks never touch `version`. -/
theorem applyCounts_version (s : ProjectStats) (fs : FileSystem) :
    (applyCounts s fs).version = s.version := by
  obtain ⟨p, td, bd⟩ := fs
  cases td <;> cases bd <;> rfl

/-- How the counting blocks set `test_files` and `builtin_plugins`. -/
theorem applyCounts_counts (s : ProjectStats) (fs : FileSystem) :
    (∀ files, fs.testDir = some files →
        (applyCounts s fs).test_files = countMatching files ".test.ts") ∧
    (fs.testDir = none → (applyCounts s fs).test_files = s.test_files) ∧
    (∀ files, fs.builtinDir = some files →
        (applyCounts s fs).builtin_plugins = countMatching files "-plugin.ts") ∧
    (fs.builtinDir = none → (applyCounts s fs).builtin_plugins = s.builtin_plugins) := by
  obtain ⟨p, td, bd⟩ := fs
  cases td <;> cases bd <;>
    refine ⟨fun files hf => ?_, fun hn => ?_, fun files hf => ?_, fun hn => ?_⟩ <;>
      first
      | (cases hf <;> rfl)
      | (cases hn <;> rfl)

/-- `map` after `filter` is a `filterMap`. -/
theorem map_filter_eq_filterMap (p : String → Bool) (f : String → String) :
    ∀ l : List String,
      (l.filter p).map f = l.filterMap fun x => if p x then some (f x) else none := by
  intro l
  induction l with
  | nil => rfl
  | cons x xs ih =>
    cases h : p x <;> simp [List.filter_cons, List.filterMap_cons, h, ih]

/-- C1: the claim says `refresh` never surfaces an error, whatever the
filesystem holds — but a manifest whose content parses as JSON without
being an object (here the array `[]`) makes `pkg.get` raise an uncaught
`AttributeError`: the call fails, leaving the state with only
`last_updated` assigned. -/
theorem refresh_raises_on_nonobject_manifest :
    ProjectStats.refresh {} (some { pkg := some (.parsed (.arr [])) }) "T" =
      .error { ({} : ProjectStats) with last_updated := "T" } :=
  rfl

/-- C2 counterexample: on the document `"Intro\n## 1.0.0\n-fix crash"` the
code accepts the line `"-fix crash"` (its test is `startswith("-")`, not
`startswith("- ")`) while the claim as stated rejects it, so the two
parses differ. -/
theorem changelog_claim_counterexample :
    get_changelog (some "Intro\n## 1.0.0\n-fix crash") ≠
      changelogClaim (some "Intro\n## 1.0.0\n-fix crash") := by
  decide

/-- C2 (amended): the changelog parse splits on `"\n## "`, discards the
preamble, keeps at most 3 sections; per section the text is stripped of
surrounding whitespace before being split into lines, the version label is
the first line trimmed, and the changes are the subsequent lines whose
trimmed text starts with `"-"` (a following space is not required), each
with every leading and trailing `"-"` or `" "` character removed and the
remainder trimmed, at most the first 5 kept; a document with no marker or
an absent file yields the empty sequence. -/
theorem changelog_amended_correct (content : Option String) :
    get_changelog content = changelogAmended content := by
  cases content with
  | none => rfl
  | some text =>
    simp only [get_changelog, changelogAmended, map_filter_eq_filterMap]

/-- C3: any GET path under `/api/` that matches none of the routes the
repository's handler defines is answered with the JSON body
`{"error": "not found"}`. -/
theorem api_unmatched_not_found (path : String) (root : Option FileSystem) (now : String)
    (hunder : pyStartsWith path "/api/" = true)
    (h1 : path ≠ "/api/stats") (h2 : path ≠ "/api/health") (h3 : path ≠ "/api/pipeline") :
    handle_api path root now = .ok (.obj [("error", .str "not found")]) := by
  simp [handle_api, h1, h2, h3]

/-- C3 witness at the concrete unmatched path `/api/unknown-path`. -/
theorem api_unmatched_not_found_witness :
    handle_api "/api/unknown-path" none "T" = .ok (.obj [("error", .str "not found")]) :=
  api_unmatched_not_found "/api/unknown-path" none "T" (by decide) (by decide) (by decide)
    (by decide)

/-- C4 counterexample: the stdlib fallback server's `/api/health` response
carries the keys `status`, `server`, `timestamp` — not the claimed
`status`, `version`, `timestamp`. -/
theorem health_fallback_counterexample :
    handle_api "/api/health" none "T" = .ok (.obj (fallback_health "T")) ∧
    (fallback_health "T").map Prod.fst ≠ ["status", "version", "timestamp"] :=
  ⟨rfl, by decide⟩

/-- C4 (amended): the FastAPI handler's `/api/health` response has exactly
the keys `status`, `version`, `timestamp`, with `status = "healthy"`,
`version` the snapshot's version and `timestamp` the clock reading; the
stdlib fallback server instead answers with the keys `status`, `server`,
`timestamp`, where `server = "stdlib"` and no version is reported. -/
theorem health_response_shape (s : ProjectStats) (now : String) :
    (health_check s now).map Prod.fst = ["status", "version", "timestamp"] ∧
    lookupField (health_check s now) "status" = some (.str "healthy") ∧
    lookupField (health_check s now) "version" = some s.version ∧
    lookupField (health_check s now) "timestamp" = some (.str now) ∧
    (fallback_health now).map Prod.fst = ["status", "server", "timestamp"] ∧
    lookupField (fallback_health now) "server" = some (.str "stdlib") :=
  ⟨rfl, rfl, rfl, rfl, rfl, rfl⟩

/-- C5: whatever `refresh` observes (including the run where the manifest
step raises), the thirteen fields the claim lists keep their values, and a
call without a project root changes `last_updated` alone. -/
theorem refresh_frame (s : ProjectStats) (root : Option FileSystem) (now : String) :
    ((afterState (s.refresh root now)).tests_passing = s.tests_passing ∧
     (afterState (s.refresh root now)).providers = s.providers ∧
     (afterState (s.refresh root now)).pipeline_stages = s.pipeline_stages ∧
     (afterState (s.refresh root now)).quality_gates = s.quality_gates ∧
     (afterState (s.refresh root now)).reasoning_strategies = s.reasoning_strategies ∧
     (afterState (s.refresh root now)).agent_roles = s.agent_roles ∧
     (afterState (s.refresh root now)).competitive_benchmarks = s.competitive_benchmarks ∧
     (afterState (s.refresh root now)).benchmarks_ahead = s.benchmarks_ahead ∧
     (afterState (s.refresh root now)).benchmarks_competitive = s.benchmarks_competitive ∧
     (afterState (s.refresh root now)).benchmarks_ready = s.benchmarks_ready ∧
     (afterState (s.refresh root now)).package_size_kb = s.package_size_kb ∧
     (afterState (s.refresh root now)).build_time_ms = s.build_time_ms ∧
     (afterState (s.refresh root now)).last_commit = s.last_commit) ∧
    (root = none → afterState (s.refresh root now) = { s with last_updated := now }) := by
  cases root with
  | none =>
    exact ⟨⟨rfl, rfl, rfl, rfl, rfl, rfl, rfl, rfl, rfl, rfl, rfl, rfl, rfl⟩, fun _ => rfl⟩
  | some fs =>
    obtain ⟨p, td, bd⟩ := fs
    refine ⟨?_, fun h => by cases h⟩
    cases p with
    | none => exact applyCounts_frame _ _
    | some pf =>
      cases pf with
      | unreadable => exact applyCounts_frame _ _
      | malformed => exact applyCounts_frame _ _
      | parsed v =>
        cases v <;>
          first
          | exact applyCounts_frame _ _
          | exact ⟨rfl, rfl, rfl, rfl, rfl, rfl, rfl, rfl, rfl, rfl, rfl, rfl, rfl⟩

/-- C5 witness: a refresh without a root at a concrete snapshot and clock. -/
theorem refresh_frame_witness :
    afterState (ProjectStats.refresh {} none "T") =
      { ({} : ProjectStats) with last_updated := "T" } :=
  (refresh_frame {} none "T").2 rfl

/-- C6: a manifest parsing to a JSON object whose `version` key holds the
string `v` makes `refresh` set the snapshot's version to `v`; a missing,
JSON-malformed or unreadable manifest leaves the version untouched. -/
theorem refresh_version_update (s : ProjectStats) (fs : FileSystem) (now : String) :
    (∀ flds v, fs.pkg = some (.parsed (.obj flds)) →
        lookupField flds "version" = some (.str v) →
        (afterState (s.refresh (some fs) now)).version = .str v) ∧
    (fs.pkg = none ∨ fs.pkg = some .malformed ∨ fs.pkg = some .unreadable →
        (afterState (s.refresh (some fs) now)).version = s.version) := by
  obtain ⟨p, td, bd⟩ := fs
  constructor
  · rintro flds v rfl hv
    simp [ProjectStats.refresh, afterState, applyCounts_version, hv]
  · rintro (rfl | rfl | rfl) <;>
      simp [ProjectStats.refresh, afterState, applyCounts_version]

/-- C6 witness: a manifest `{"version": "2.3.4"}` updates the version, a
JSON-malformed manifest leaves the default in place. -/
theorem refresh_version_update_witness :
    (afterState (ProjectStats.refresh {}
        (some { pkg := some (.parsed (.obj [("version", .str "2.3.4")])) }) "T")).version =
      .str "2.3.4" ∧
    (afterState (ProjectStats.refresh {} (some { pkg := some .malformed }) "T")).version =
      ({} : ProjectStats).version :=
  ⟨(refresh_version_update {} { pkg := some (.parsed (.obj [("version", .str "2.3.4")])) }
      "T").1 _ _ rfl rfl,
   (refresh_version_update {} { pkg := some .malformed } "T").2 (.inr (.inl rfl))⟩

/-- C7 counterexample: with a manifest parsing to the JSON array `[]` and a
`test` directory holding exactly one conventionally named file, `refresh`
raises before the counting blocks run, so `test_files` stays at its prior
value instead of being set to the count (1). -/
theorem refresh_counts_counterexample :
    (afterState (ProjectStats.refresh {}
        (some { pkg := some (.parsed (.arr []))
                testDir := some ["a.test.ts"] }) "T")).test_files ≠
      countMatching ["a.test.ts"] ".test.ts" := by
  decide

/-- C7 (amended): whenever the manifest step does not raise (the manifest
is absent, unreadable, JSON-malformed, or parses to a JSON object),
`refresh` with a root sets `test_files` to the number of entries named
`*.test.ts` recursively under `<root>/test` when that directory exists, and
`builtin_plugins` to the number of entries named `*-plugin.ts` directly
under `<root>/src/plugins/builtin` when that directory exists; each count
keeps its prior value when its directory is absent. -/
theorem refresh_counts_amended (s : ProjectStats) (fs : FileSystem) (now : String)
    (h : pkgStepRaises fs.pkg = false) :
    (∀ files, fs.testDir = some files →
        (afterState (s.refresh (some fs) now)).test_files = countMatching files ".test.ts") ∧
    (fs.testDir = none →
        (afterState (s.refresh (some fs) now)).test_files = s.test_files) ∧
    (∀ files, fs.builtinDir = some files →
        (afterState (s.refresh (some fs) now)).builtin_plugins =
          countMatching files "-plugin.ts") ∧
    (fs.builtinDir = none →
        (afterState (s.refresh (some fs) now)).builtin_plugins = s.builtin_plugins) := by
  obtain ⟨p, td, bd⟩ := fs
  cases p with
  | none => exact applyCounts_counts _ _
  | some pf =>
    cases pf with
    | unreadable => exact applyCounts_counts _ _
    | malformed => exact applyCounts_counts _ _
    | parsed v =>
      cases v with
      | obj flds => exact applyCounts_counts _ _
      | null => exact Bool.noConfusion h
      | bool b => exact Bool.noConfusion h
      | num n => exact Bool.noConfusion h
      | str s2 => exact Bool.noConfusion h
      | arr es => exact Bool.noConfusion h

/-- C7 witness: one matching and one non-matching test file, one matching
plugin file, manifest absent. -/
theorem refresh_counts_amended_witness :
    (afterState (ProjectStats.refresh {}
        (some { testDir := some ["a.test.ts", "b.ts"]
                builtinDir := some ["x-plugin.ts"] }) "T")).test_files =
      countMatching ["a.test.ts", "b.ts"] ".test.ts" ∧
    (afterState (ProjectStats.refresh {}
        (some { testDir := some ["a.test.ts", "b.ts"]
                builtinDir := some ["x-plugin.ts"] }) "T")).builtin_plugins =
      countMatching ["x-plugin.ts"] "-plugin.ts" :=
  ⟨(refresh_counts_amended {}
      { testDir := some ["a.test.ts", "b.ts"], builtinDir := some ["x-plugin.ts"] }
      "T" rfl).1 _ rfl,
   (refresh_counts_amended {}
      { testDir := some ["a.test.ts", "b.ts"], builtinDir := some ["x-plugin.ts"] }
      "T" rfl).2.2.1 _ rfl⟩

/-- C8: the `/api/pipeline` body ignores all server state and always
serves exactly 8 stages whose ids are 1 through 8 in ascending order. -/
theorem pipeline_eight_stages :
    get_pipeline.length = 8 ∧
    get_pipeline.map PipelineStage.id = [1, 2, 3, 4, 5, 6, 7, 8] :=
  ⟨rfl, rfl⟩

/-- C9: with the filesystem and the clock held fixed, running `refresh`
twice in succession leaves the same snapshot state as running it once. -/
theorem refresh_idempotent (s : ProjectStats) (root : Option FileSystem) (now : String) :
    afterState ((afterState (s.refresh root now)).refresh root now) =
      afterState (s.refresh root now) := by
  cases root with
  | none => rfl
  | some fs =>
    obtain ⟨p, td, bd⟩ := fs
    cases p with
    | none => cases td <;> cases bd <;> rfl
    | some pf =>
      cases pf with
      | unreadable => cases td <;> cases bd <;> rfl
      | malformed => cases td <;> cases bd <;> rfl
      | parsed v =>
        cases v with
        | obj flds =>
          cases hv : lookupField flds "version" with
          | none =>
            cases td <;> cases bd <;>
              simp [ProjectStats.refresh, afterState, applyCounts, hv]
          | some w =>
            cases td <;> cases bd <;>
              simp [ProjectStats.refresh, afterState, applyCounts, hv]
        | null => rfl
        | bool b => rfl
        | num n => rfl
        | str s2 => rfl
        | arr es => rfl

/-- C10: in the `/api/benchmarks` catalog, every record listed under a
category key carries that key in its `category` field. -/
theorem benchmarks_category_consistent (k : String) (l : List BenchmarkResult)
    (b : BenchmarkResult) (hkl : (k, l) ∈ get_benchmarks) (hb : b ∈ l) :
    b.category = k := by
  simp only [get_benchmarks, BENCHMARK_CATEGORIES, List.mem_cons, List.not_mem_nil,
    or_false, Prod.mk.injEq] at hkl
  rcases hkl with ⟨rfl, rfl⟩ | ⟨rfl, rfl⟩ | ⟨rfl, rfl⟩ <;> (fin_cases hb <;> rfl)

/-- C10 witness: the first record of the first category. -/
theorem benchmarks_category_consistent_witness :
    ((get_benchmarks.headD ("", [])).2.headD ⟨"", "", "", "", ""⟩).category =
      (get_benchmarks.headD ("", [])).1 :=
  benchmarks_category_consistent (get_benchmarks.headD ("", [])).1
    (get_benchmarks.headD ("", [])).2
    ((get_benchmarks.headD ("", [])).2.headD ⟨"", "", "", "", ""⟩)
    (by decide) (by decide)

end Landing
